import Mathlib

/-!
Shallow embedding of `packages/plugins/java/apollo-android/src/visitor.ts`
(the `JavaApolloAndroidVisitor` class) and proofs about the class text
and the import set it produces for one GraphQL input-object definition.

The visitor's mutable `_imports : Set<string>` is modelled as an explicit
state argument `st : List String` holding the distinct imports in insertion
order; every method of the class becomes a function `... → List String →
Result × List String`.  Strings are built with the same templates as the
source (every `${...}` interpolation becomes `++`).
-/

set_option autoImplicit false
set_option maxRecDepth 100000

namespace ApolloAndroid

/-- GraphQL `TypeNode` AST: named type, list type, or non-null wrapper. -/
inductive TypeNode where
  | named (name : String)
  | list (ofType : TypeNode)
  | nonNull (ofType : TypeNode)
  deriving DecidableEq, Repr

/-- The kind of a schema type as discriminated by the source's
`isScalarType` / `isInputObjectType` / `isEnumType` guards. -/
inductive SchemaKind where
  | scalar
  | enum
  | inputObject
  | object
  deriving DecidableEq, Repr

/-- A schema type: its kind together with its name (the source reads
`schemaType.name` after looking the type up). -/
structure SchemaType where
  kind : SchemaKind
  name : String
  deriving DecidableEq, Repr

/-- The schema boundary: named-type lookup, assumed pre-validated
(the source dereferences the lookup result unconditionally). -/
structure GQLSchema where
  getType : String → SchemaType

/-- `InputValueDefinitionNode`: a field of an input object type. -/
structure InputValueDef where
  name : String
  type : TypeNode
  deriving DecidableEq, Repr

/-- `InputObjectTypeDefinitionNode`: name plus field list. -/
structure InputObjectDef where
  name : String
  fields : List InputValueDef
  deriving DecidableEq, Repr

/-- The visitor's parsed configuration: output package plus the effective
scalar-mapping table `config.scalars` (defaults merged with user config). -/
structure Config where
  pkg : String
  scalars : String → Option String

/-- Modelled from the spec: the external `Imports` registry supplying the
qualified import string for each identifier the visitor mentions
(`Imports.Input`, `Imports.List`, ...) and the lookup `Imports[scalar]`
used for mapped scalar types.  Values are abstract; the claims do not
depend on the concrete import strings. -/
structure ImportsReg where
  input : String
  nonNullImp : String
  listImp : String
  overrideImp : String
  ioExn : String
  inputFieldWriter : String
  inputFieldMarshaller : String
  utils : String
  nullableImp : String
  inputTypeImp : String
  generatedImp : String
  byName : String → Option String

/-- Modelled from the spec: the external declaration-block printer's input
(name, modifiers, annotations, implemented interfaces, body text). -/
structure DeclSpec where
  annots : List String
  access : String
  isFinal : Bool
  isStatic : Bool
  kind : String
  name : String
  impls : List String
  block : String

/-- `field.type.kind === Kind.NON_NULL_TYPE` -/
def typeIsNonNull : TypeNode → Bool
  | .nonNull _ => true
  | _ => false

/-- `type.kind === Kind.LIST_TYPE || (type.kind === Kind.NON_NULL_TYPE &&
type.type.kind === Kind.LIST_TYPE)` (source line 122). -/
def typeIsArray : TypeNode → Bool
  | .list _ => true
  | .nonNull (.list _) => true
  | _ => false

/-- Modelled from the spec: `getBaseTypeNode` from the shared helper
library unwraps list and non-null wrappers down to the base named type. -/
def getBaseTypeNode : TypeNode → String
  | .named n => n
  | .list t => getBaseTypeNode t
  | .nonNull t => getBaseTypeNode t

/-- Modelled from the spec: the shared helper `wrapTypeWithModifiers`
wraps the base target type in `List<...>` for each list wrapper,
ignoring non-null wrappers (the visitor passes `'List'` as list type). -/
def wrapTypeWithModifiers (baseType : String) : TypeNode → String
  | .nonNull t => wrapTypeWithModifiers baseType t
  | .list t => "List<" ++ wrapTypeWithModifiers baseType t ++ ">"
  | .named _ => baseType

/-- Modelled from the spec: shared 2-space `indent` helper. -/
def indentation (count : Nat) : String :=
  String.join (List.replicate count "  ")

/-- `indent(str, count)`: prepend the indentation to the string. -/
def indent (s : String) (count : Nat := 1) : String :=
  indentation count ++ s

/-- Character-level body of `indentMultiline`: insert the indentation
after every newline (the `str.replace(/\n/g, '\n' + indentation)`). -/
def indentMultilineData (ind : List Char) : List Char → List Char
  | [] => []
  | c :: cs =>
    if c = '\n' then c :: (ind ++ indentMultilineData ind cs)
    else c :: indentMultilineData ind cs

/-- Modelled from the spec: shared `indentMultiline` helper — prepend the
indentation and re-indent after every embedded newline. -/
def indentMultiline (s : String) (count : Nat := 1) : String :=
  ⟨(indentation count).data ++ indentMultilineData (indentation count).data s.data⟩

/-- `l.join(sep)` on strings. -/
def joinWith (sep : String) (l : List String) : String :=
  String.intercalate sep l

/-- Decidable substring test used for the source's `result.includes('List<')`. -/
def infixOfData (p : List Char) : List Char → Bool
  | [] => p.isEmpty
  | c :: cs => p.isPrefixOf (c :: cs) || infixOfData p cs

/-- `s.includes(pat)` -/
def containsSub (s pat : String) : Bool :=
  infixOfData pat.data s.data

/-- `s.startsWith(pat)` (stated over the underlying character data). -/
def startsWithStr (s pat : String) : Bool :=
  pat.data.isPrefixOf s.data

/-- `this._imports.add(imp)`: a JS `Set` keeps insertion order and ignores
re-insertions. -/
def addImport (st : List String) (imp : String) : List String :=
  if imp ∈ st then st else st ++ [imp]

/-- The `imports` getter (source lines 35-37): map each accumulated
identifier to an `import ...;` statement, in insertion order. -/
def imports (st : List String) : List String :=
  st.map (fun imp => "import " ++ imp ++ ";")

/-- State-threading `map`: apply `g` to each element left to right,
threading the import set through, collecting the produced strings. -/
def mapWithState {α β : Type} (g : α → List String → β × List String) :
    List α → List String → List β × List String
  | [], st => ([], st)
  | a :: as, st =>
    let r := g a st
    let rest := mapWithState g as r.2
    (r.1 :: rest.1, rest.2)

/-- `SCALAR_TO_WRITER_METHOD` (source lines 11-17). -/
def SCALAR_TO_WRITER_METHOD : String → Option String := fun n =>
  if n = "ID" then some "writeString"
  else if n = "String" then some "writeString"
  else if n = "Int" then some "writeInt"
  else if n = "Boolean" then some "writeBoolean"
  else if n = "Float" then some "writeDouble"
  else none

/-- `getActualType` (source lines 39-63): resolve a type reference to a
Java type string; record scalar-mapping, input-object and `List` imports. -/
def getActualType (S : GQLSchema) (cfg : Config) (reg : ImportsReg)
    (ty : TypeNode) (wrap : Bool) (st : List String) : String × List String :=
  let schemaType := S.getType (getBaseTypeNode ty)
  let typeToUse :=
    if schemaType.kind = SchemaKind.scalar then (cfg.scalars schemaType.name).getD "Object"
    else schemaType.name
  let st1 :=
    if schemaType.kind = SchemaKind.scalar then
      match reg.byName ((cfg.scalars schemaType.name).getD "Object") with
      | some imp => addImport st imp
      | none => st
    else if schemaType.kind = SchemaKind.inputObject then
      addImport st (cfg.pkg ++ "." ++ schemaType.name)
    else st
  let result := if wrap then wrapTypeWithModifiers typeToUse ty else typeToUse
  let st2 := if containsSub result "List<" then addImport st1 reg.listImp else st1
  (result, st2)

/-- `getFieldWriterCall` (source lines 103-118): choose the writer call for
a field (or, with `listItemCall`, for a list item).  The interpolation of a
JS `null` writer method renders as the text `null`, as in the source. -/
def getFieldWriterCall (S : GQLSchema) (field : InputValueDef)
    (listItemCall : Bool) : String :=
  let schemaType := S.getType (getBaseTypeNode field.type)
  let isNonNull := typeIsNonNull field.type
  if schemaType.kind = SchemaKind.inputObject then
    if listItemCall then "writeObject($item.marshaller())"
    else "writeObject(\"" ++ field.name ++ "\", " ++ field.name ++
      ".value != null ? " ++ field.name ++ ".value.marshaller() : null)"
  else
    let writerMethod :=
      if schemaType.kind = SchemaKind.scalar then
        (SCALAR_TO_WRITER_METHOD schemaType.name).getD "writeCustom"
      else if schemaType.kind = SchemaKind.enum then "writeString"
      else "null"
    if listItemCall then writerMethod ++ "($item)"
    else writerMethod ++ "(\"" ++ field.name ++ "\", " ++ field.name ++
      (if isNonNull then "" else ".value") ++ ")"

/-- `getFieldWithTypePrefix` (source lines 65-83): the declared type-plus-name
for a field; always records the `Input` import, records `Nonnull` for
required fields, and boxes optional fields in `Input<...>` when requested. -/
def getFieldWithTypePrefix (S : GQLSchema) (cfg : Config) (reg : ImportsReg)
    (field : InputValueDef) (withInputWrapperWhenNeeded : Bool)
    (st : List String) : String × List String :=
  let st0 := addImport st reg.input
  let ta := getActualType S cfg reg field.type true st0
  let isNonNull := typeIsNonNull field.type
  let st2 := if isNonNull then addImport ta.2 reg.nonNullImp else ta.2
  if isNonNull then ("@Nonnull " ++ ta.1 ++ " " ++ field.name, st2)
  else if withInputWrapperWhenNeeded then ("Input<" ++ ta.1 ++ "> " ++ field.name, st2)
  else (ta.1 ++ " " ++ field.name, st2)

/-- The per-field callback of `buildInputPrivateFields` (source line 87-91). -/
def privateFieldEntry (S : GQLSchema) (cfg : Config) (reg : ImportsReg)
    (field : InputValueDef) (s : List String) : String × List String :=
  let ft := getFieldWithTypePrefix S cfg reg field true s
  ("private final " ++ ft.1 ++ ";", ft.2)

/-- `buildInputPrivateFields` (source lines 85-93). -/
def buildInputPrivateFields (S : GQLSchema) (cfg : Config) (reg : ImportsReg)
    (fields : List InputValueDef) (st : List String) : List String × List String :=
  let r := mapWithState (privateFieldEntry S cfg reg) fields st
  (r.1.map (fun s => indent s), r.2)

/-- `buildInputCtor` (source lines 95-101). -/
def buildInputCtor (S : GQLSchema) (cfg : Config) (reg : ImportsReg)
    (className : String) (fields : List InputValueDef) (st : List String) :
    String × List String :=
  let r := mapWithState (fun field s => getFieldWithTypePrefix S cfg reg field true s) fields st
  (indentMultiline (className ++ "(" ++ joinWith ", " r.1 ++ ") \x7b\n" ++
    joinWith "\n" (fields.map (fun field =>
      indent ("this." ++ field.name ++ " = " ++ field.name ++ ";"))) ++ "\n\x7d"), r.2)

/-- The unguarded per-field marshaller statement: the local `result` of
`buildFieldsMarshaller` (source lines 125-138), extracted as a pure
definition (the list-item type resolution has no effect on the text). -/
def marshallerStatement (S : GQLSchema) (cfg : Config) (reg : ImportsReg)
    (field : InputValueDef) : String :=
  let isArray := typeIsArray field.type
  let call := getFieldWriterCall S field isArray
  let listItemType := (getActualType S cfg reg field.type false []).1
  if isArray then
    "writer.writeList(\"" ++ field.name ++ "\", " ++ field.name ++
    ".value != null ? new InputFieldWriter.ListWriter() \x7b\n  @Override\n  public void write(InputFieldWriter.ListItemWriter listItemWriter) throws IOException \x7b\n    for (" ++
    listItemType ++ " $item : " ++ field.name ++
    ".value) \x7b\n      listItemWriter." ++ call ++ ";\n    \x7d\n  \x7d\n\x7d : null);"
  else indent ("writer." ++ call ++ ";")

/-- `buildFieldsMarshaller` (source lines 120-147): the per-field
marshaller statement, wrapped in the `if(name.defined)` presence guard
when the field is not non-null. -/
def buildFieldsMarshaller (S : GQLSchema) (cfg : Config) (reg : ImportsReg)
    (field : InputValueDef) (st : List String) : String × List String :=
  let isNonNull := typeIsNonNull field.type
  let isArray := typeIsArray field.type
  let call := getFieldWriterCall S field isArray
  let ta := getActualType S cfg reg field.type false st
  let result :=
    if isArray then
      "writer.writeList(\"" ++ field.name ++ "\", " ++ field.name ++
      ".value != null ? new InputFieldWriter.ListWriter() \x7b\n  @Override\n  public void write(InputFieldWriter.ListItemWriter listItemWriter) throws IOException \x7b\n    for (" ++
      ta.1 ++ " $item : " ++ field.name ++
      ".value) \x7b\n      listItemWriter." ++ call ++ ";\n    \x7d\n  \x7d\n\x7d : null);"
    else indent ("writer." ++ call ++ ";")
  if isNonNull then (result, ta.2)
  else (indentMultiline ("if(" ++ field.name ++ ".defined) \x7b\n" ++
    indentMultiline result ++ "\n\x7d"), ta.2)

/-- The per-field callback of `buildMarshallerOverride` (source line 154). -/
def marshallerEntry (S : GQLSchema) (cfg : Config) (reg : ImportsReg)
    (field : InputValueDef) (s : List String) : String × List String :=
  let m := buildFieldsMarshaller S cfg reg field s
  (indentMultiline m.1 2, m.2)

/-- `buildMarshallerOverride` (source lines 149-165). -/
def buildMarshallerOverride (S : GQLSchema) (cfg : Config) (reg : ImportsReg)
    (fields : List InputValueDef) (st : List String) : String × List String :=
  let st1 := addImport st reg.overrideImp
  let st2 := addImport st1 reg.ioExn
  let st3 := addImport st2 reg.inputFieldWriter
  let st4 := addImport st3 reg.inputFieldMarshaller
  let r := mapWithState (marshallerEntry S cfg reg) fields st4
  (indentMultiline ("@Override\npublic InputFieldMarshaller marshaller() \x7b\n  return new InputFieldMarshaller() \x7b\n    @Override\n    public void marshal(InputFieldWriter writer) throws IOException \x7b\n" ++
    joinWith "\n" r.1 ++ "\n    \x7d\n  \x7d;\n\x7d"), r.2)

/-- The builder's `nonNullFields` null-check lines (source lines 190-196),
extracted as a pure definition (the `Utils` import is threaded by
`buildBuilderNestedClass`). -/
def builderNonNullChecks (fields : List InputValueDef) : List String :=
  (fields.filter (fun f => typeIsNonNull f.type)).map (fun nnField =>
    indent ("Utils.checkNotNull(" ++ nnField.name ++ ", \"" ++ nnField.name ++ " == null\");") 1)

/-- The builder's `buildFn` text (source lines 199-202). -/
def builderBuildFn (className : String) (fields : List InputValueDef) : String :=
  indentMultiline ("public " ++ className ++ " build() \x7b\n" ++
    joinWith "\n" (builderNonNullChecks fields) ++
    "\n  return new " ++ className ++ "(" ++
    joinWith ", " (fields.map (fun f => f.name)) ++ ");\n\x7d")

/-- The per-field private-slot callback of `buildBuilderNestedClass`
(source lines 169-176): optional fields default to `Input.absent()`. -/
def builderPrivateEntry (S : GQLSchema) (cfg : Config) (reg : ImportsReg)
    (field : InputValueDef) (s : List String) : String × List String :=
  let ft := getFieldWithTypePrefix S cfg reg field true s
  ("private " ++ ft.1 ++ (if typeIsNonNull field.type then "" else " = Input.absent()") ++ ";",
   ft.2)

/-- The per-field setter callback of `buildBuilderNestedClass`
(source lines 178-188). -/
def builderSetterEntry (S : GQLSchema) (cfg : Config) (reg : ImportsReg)
    (field : InputValueDef) (s : List String) : String × List String :=
  let ft := getFieldWithTypePrefix S cfg reg field false s
  ("\npublic Builder " ++ field.name ++ "(" ++
   (if typeIsNonNull field.type then "" else "@Nullable ") ++ ft.1 ++
   ") \x7b\n  this." ++ field.name ++ " = " ++
   (if typeIsNonNull field.type then field.name
    else "Input.fromNullable(" ++ field.name ++ ")") ++
   ";\n  return this;\n\x7d", ft.2)

/-- `buildBuilderNestedClass` (source lines 167-214): private slots,
fluent setters, required-field null checks, `build()`, then the external
declaration-block printer. -/
def buildBuilderNestedClass (S : GQLSchema) (cfg : Config) (reg : ImportsReg)
    (declPrinter : DeclSpec → String) (className : String)
    (fields : List InputValueDef) (st : List String) : String × List String :=
  let pf := mapWithState (builderPrivateEntry S cfg reg) fields st
  let privateFields := pf.1.map (fun s => indent s)
  let se := mapWithState (builderSetterEntry S cfg reg) fields pf.2
  let setters := se.1.map (fun s => indentMultiline s)
  let stU := (fields.filter (fun f => typeIsNonNull f.type)).foldl
    (fun s _ => addImport s reg.utils) se.2
  let ctor := "\n" ++ indent ("Builder() \x7b\x7d")
  let body := joinWith "\n"
    (privateFields ++ [ctor] ++ setters ++ [""] ++ [builderBuildFn className fields])
  (indentMultiline (declPrinter ⟨[], "public", true, true, "class", "Builder", [], body⟩), stU)

/-- The per-field getter callback of `buildInputGetters`
(source lines 218-227). -/
def getterEntry (S : GQLSchema) (cfg : Config) (reg : ImportsReg)
    (field : InputValueDef) (s : List String) : String × List String :=
  let ft := getFieldWithTypePrefix S cfg reg field true s
  let isNullable := typeIsNonNull field.type = false
  let s2 := if isNullable then addImport ft.2 reg.nullableImp else ft.2
  ("public " ++ (if isNullable then "@Nullable " else "") ++ ft.1 ++
   "() \x7b return this." ++ field.name ++ "; \x7d", s2)

/-- `buildInputGetters` (source lines 216-229). -/
def buildInputGetters (S : GQLSchema) (cfg : Config) (reg : ImportsReg)
    (fields : List InputValueDef) (st : List String) : List String × List String :=
  let r := mapWithState (getterEntry S cfg reg) fields st
  (r.1.map (fun s => indent s), r.2)

/-- `InputObjectTypeDefinition` (source lines 231-253): the top-level
entry point producing the class text for one input-object definition,
together with the final import state. -/
def InputObjectTypeDefinition (S : GQLSchema) (cfg : Config) (reg : ImportsReg)
    (declPrinter : DeclSpec → String) (node : InputObjectDef)
    (st : List String) : String × List String :=
  let className := node.name
  let st1 := addImport st reg.inputTypeImp
  let st2 := addImport st1 reg.generatedImp
  let pf := buildInputPrivateFields S cfg reg node.fields st2
  let ct := buildInputCtor S cfg reg className node.fields pf.2
  let ge := buildInputGetters S cfg reg node.fields ct.2
  let builderGetter := indent "public static Builder builder() \x7b return new Builder(); \x7d"
  let mo := buildMarshallerOverride S cfg reg node.fields ge.2
  let bc := buildBuilderNestedClass S cfg reg declPrinter className node.fields mo.2
  let classBlock := joinWith "\n"
    (pf.1 ++ [""] ++ [ct.1] ++ [""] ++ ge.1 ++ [""] ++ [builderGetter] ++ [""] ++
     [mo.1] ++ [""] ++ [bc.1])
  (declPrinter ⟨["Generated(\"Apollo GraphQL\")"], "public", true, false, "class",
    className, ["InputType"], classBlock⟩, bc.2)

/-! ### Spec-side definitions (stated from the claims' words) -/

/-- Follows the claim's words (presence guard): the whole per-field
statement wrapped in `if (field.defined) \x7b ... \x7d`, using the
two-space layout of the shared indent helpers. -/
def presenceGuardWrap (name stmt : String) : String :=
  indentMultiline ("if(" ++ name ++ ".defined) \x7b\n" ++ indentMultiline stmt ++ "\n\x7d")

/-- Follows the claim's words (C8): `build()` performs one
`Utils.checkNotNull(field, "field == null")` line per required field, in
declaration order, then invokes the constructor with every field name,
required and optional, in declaration order, with no check for optional
fields. -/
def specBuildFn (className : String) (fields : List InputValueDef) : String :=
  indentMultiline ("public " ++ className ++ " build() \x7b\n" ++
    joinWith "\n" ((fields.filter (fun f => typeIsNonNull f.type)).map (fun f =>
      "  " ++ "Utils.checkNotNull(" ++ f.name ++ ", \"" ++ f.name ++ " == null\");")) ++
    "\n  return new " ++ className ++ "(" ++
    joinWith ", " (fields.map (fun f => f.name)) ++ ");\n\x7d")

/-! ### Concrete fixtures for witnesses and counterexamples -/

/-- A small schema: `OtherInput` is an input object, `Episode` an enum,
`MyScalar` a custom scalar, and every other name a built-in scalar. -/
def exSchema : GQLSchema :=
  ⟨fun n =>
    if n = "OtherInput" then ⟨SchemaKind.inputObject, "OtherInput"⟩
    else if n = "Episode" then ⟨SchemaKind.enum, "Episode"⟩
    else ⟨SchemaKind.scalar, n⟩⟩

/-- The effective scalar mapping (Java defaults), leaving `MyScalar` unmapped. -/
def exConfig : Config :=
  ⟨"com.app.generated.graphql",
   fun n =>
     if n = "ID" then some "String"
     else if n = "String" then some "String"
     else if n = "Int" then some "Integer"
     else if n = "Boolean" then some "Boolean"
     else if n = "Float" then some "Double"
     else none⟩

/-- A concrete imports registry with the apollo-android identifiers. -/
def exReg : ImportsReg :=
  ⟨"com.apollographql.apollo.api.Input",
   "javax.annotation.Nonnull",
   "java.util.List",
   "java.lang.Override",
   "java.io.IOException",
   "com.apollographql.apollo.api.internal.InputFieldWriter",
   "com.apollographql.apollo.api.internal.InputFieldMarshaller",
   "com.apollographql.apollo.api.internal.Utils",
   "javax.annotation.Nullable",
   "com.apollographql.apollo.api.InputType",
   "javax.annotation.Generated",
   fun n =>
     if n = "String" then some "java.lang.String"
     else if n = "Integer" then some "java.lang.Integer"
     else if n = "Boolean" then some "java.lang.Boolean"
     else if n = "Double" then some "java.lang.Double"
     else if n = "Object" then some "java.lang.Object"
     else none⟩

/-- A trivial stand-in for the external declaration-block printer. -/
def exPrinter : DeclSpec → String := fun d => d.block

/-- `ref: OtherInput!` — a required non-list input-object field. -/
def refReqField : InputValueDef := ⟨"ref", .nonNull (.named "OtherInput")⟩

/-- `ref: OtherInput` — an optional non-list input-object field. -/
def refOptField : InputValueDef := ⟨"ref", .named "OtherInput"⟩

/-- `tags: [String]` — an optional list of String items. -/
def tagsField : InputValueDef := ⟨"tags", .list (.named "String")⟩

/-- `tags: [String]!` — a required list field. -/
def tagsReqField : InputValueDef := ⟨"tags", .nonNull (.list (.named "String"))⟩

/-- `refs: [OtherInput]` — a list field with input-object (nullable) items. -/
def refsListField : InputValueDef := ⟨"refs", .list (.named "OtherInput")⟩

/-- `id: ID!` — a required scalar field. -/
def idField : InputValueDef := ⟨"id", .nonNull (.named "ID")⟩

/-- `limit: Int` — an optional scalar field. -/
def limitField : InputValueDef := ⟨"limit", .named "Int"⟩

/-- `meta: MyScalar` — an optional field of an unmapped custom scalar. -/
def customField : InputValueDef := ⟨"meta", .named "MyScalar"⟩

/-- A concrete input object definition with required, optional and
input-object fields. -/
def exNode : InputObjectDef := ⟨"Filter", [idField, limitField, refOptField]⟩

/-! ### Helper lemmas about the import-set state -/

theorem addImport_pre (st : List String) (imp : String) : st <+: addImport st imp := by
  unfold addImport
  split
  · exact List.prefix_refl st
  · exact List.prefix_append st [imp]

theorem prefix_addImport {st st' : List String} (i : String) (h : st <+: st') :
    st <+: addImport st' i :=
  h.trans (addImport_pre st' i)

theorem mem_addImport_self (st : List String) (imp : String) : imp ∈ addImport st imp := by
  unfold addImport
  split
  · assumption
  · exact List.mem_append_right st (List.mem_singleton.mpr rfl)

theorem nodup_addImport {st : List String} (imp : String) (h : st.Nodup) :
    (addImport st imp).Nodup := by
  unfold addImport
  split
  · exact h
  · exact List.nodup_append.mpr ⟨h, List.nodup_singleton imp,
      fun a ha hb => by simp_all [List.mem_singleton]⟩

theorem foldl_addImport_pre {α : Type} (u : String) :
    ∀ (l : List α) (st : List String), st <+: l.foldl (fun s _ => addImport s u) st
  | [], _ => List.prefix_refl _
  | _ :: as, st =>
    (addImport_pre st u).trans (foldl_addImport_pre u as (addImport st u))

theorem foldl_addImport_nodup {α : Type} (u : String) :
    ∀ (l : List α) (st : List String), st.Nodup →
      (l.foldl (fun s _ => addImport s u) st).Nodup
  | [], _, h => h
  | _ :: as, st, h => foldl_addImport_nodup u as (addImport st u) (nodup_addImport u h)

theorem mapWithState_fst {α β : Type} (g : α → List String → β × List String)
    (hg : ∀ a s, (g a s).1 = (g a []).1) :
    ∀ (l : List α) (st : List String),
      (mapWithState g l st).1 = (mapWithState g l []).1
  | [], _ => rfl
  | a :: as, st => by
    simp only [mapWithState]
    rw [hg a st, mapWithState_fst g hg as (g a st).2,
      mapWithState_fst g hg as (g a []).2]

theorem mapWithState_pre {α β : Type} (g : α → List String → β × List String)
    (hg : ∀ a s, s <+: (g a s).2) :
    ∀ (l : List α) (st : List String), st <+: (mapWithState g l st).2
  | [], st => List.prefix_refl st
  | a :: as, st => (hg a st).trans (mapWithState_pre g hg as (g a st).2)

theorem mapWithState_nodup {α β : Type} (g : α → List String → β × List String)
    (hg : ∀ a s, s.Nodup → (g a s).2.Nodup) :
    ∀ (l : List α) (st : List String), st.Nodup → (mapWithState g l st).2.Nodup
  | [], _, h => h
  | a :: as, st, h => mapWithState_nodup g hg as (g a st).2 (hg a st h)

theorem mapWithState_mem {α β : Type} (g : α → List String → β × List String)
    (hpre : ∀ a s, s <+: (g a s).2) (f : α) (x : String)
    (hx : ∀ s, x ∈ (g f s).2) :
    ∀ (l : List α), f ∈ l → ∀ (st : List String), x ∈ (mapWithState g l st).2
  | a :: as, hmem, st => by
    simp only [mapWithState]
    rcases List.mem_cons.mp hmem with h | h
    · subst h
      exact (mapWithState_pre g hpre as (g f st).2).subset (hx st)
    · exact mapWithState_mem g hpre f x hx as h (g a st).2

/-! ### Per-method state lemmas: the emitted text never reads the import
set, the import set only grows by appending, and distinctness is kept. -/

theorem getActualType_fst (S : GQLSchema) (cfg : Config) (reg : ImportsReg)
    (ty : TypeNode) (wrap : Bool) (st : List String) :
    (getActualType S cfg reg ty wrap st).1 = (getActualType S cfg reg ty wrap []).1 := by
  simp [getActualType]

theorem getActualType_pre (S : GQLSchema) (cfg : Config) (reg : ImportsReg)
    (ty : TypeNode) (wrap : Bool) (st : List String) :
    st <+: (getActualType S cfg reg ty wrap st).2 := by
  unfold getActualType
  dsimp only
  repeat' split
  all_goals
    first
    | exact List.prefix_refl _
    | exact addImport_pre _ _
    | exact prefix_addImport _ (addImport_pre _ _)

theorem getActualType_nodup (S : GQLSchema) (cfg : Config) (reg : ImportsReg)
    (ty : TypeNode) (wrap : Bool) (st : List String) (h : st.Nodup) :
    (getActualType S cfg reg ty wrap st).2.Nodup := by
  unfold getActualType
  dsimp only
  repeat' split
  all_goals
    first
    | exact h
    | exact nodup_addImport _ h
    | exact nodup_addImport _ (nodup_addImport _ h)

theorem getActualType_mem_qualified (S : GQLSchema) (cfg : Config) (reg : ImportsReg)
    (ty : TypeNode) (wrap : Bool) (st : List String)
    (hk : (S.getType (getBaseTypeNode ty)).kind = SchemaKind.inputObject) :
    cfg.pkg ++ "." ++ (S.getType (getBaseTypeNode ty)).name ∈
      (getActualType S cfg reg ty wrap st).2 := by
  unfold getActualType
  dsimp only
  simp only [hk, reduceCtorEq, if_false, if_true]
  repeat' split
  all_goals
    first
    | exact mem_addImport_self _ _
    | exact (addImport_pre _ _).subset (mem_addImport_self _ _)

theorem getFieldWithTypePrefix_fst (S : GQLSchema) (cfg : Config) (reg : ImportsReg)
    (field : InputValueDef) (w : Bool) (st : List String) :
    (getFieldWithTypePrefix S cfg reg field w st).1 =
    (getFieldWithTypePrefix S cfg reg field w []).1 := by
  cases hn : typeIsNonNull field.type <;> cases w <;>
    simp [getFieldWithTypePrefix, hn, getActualType_fst]

theorem getFieldWithTypePrefix_pre (S : GQLSchema) (cfg : Config) (reg : ImportsReg)
    (field : InputValueDef) (w : Bool) (st : List String) :
    st <+: (getFieldWithTypePrefix S cfg reg field w st).2 := by
  unfold getFieldWithTypePrefix
  dsimp only
  have h1 : st <+: (getActualType S cfg reg field.type true (addImport st reg.input)).2 :=
    (addImport_pre st reg.input).trans (getActualType_pre S cfg reg field.type true _)
  repeat' split
  all_goals first | exact h1 | exact prefix_addImport _ h1

theorem getFieldWithTypePrefix_nodup (S : GQLSchema) (cfg : Config) (reg : ImportsReg)
    (field : InputValueDef) (w : Bool) (st : List String) (h : st.Nodup) :
    (getFieldWithTypePrefix S cfg reg field w st).2.Nodup := by
  unfold getFieldWithTypePrefix
  dsimp only
  have h1 : (getActualType S cfg reg field.type true (addImport st reg.input)).2.Nodup :=
    getActualType_nodup S cfg reg field.type true _ (nodup_addImport _ h)
  repeat' split
  all_goals first | exact h1 | exact nodup_addImport _ h1

theorem getFieldWithTypePrefix_mem_input (S : GQLSchema) (cfg : Config) (reg : ImportsReg)
    (field : InputValueDef) (w : Bool) (st : List String) :
    reg.input ∈ (getFieldWithTypePrefix S cfg reg field w st).2 := by
  unfold getFieldWithTypePrefix
  dsimp only
  have h1 : reg.input ∈ (getActualType S cfg reg field.type true (addImport st reg.input)).2 :=
    (getActualType_pre S cfg reg field.type true _).subset (mem_addImport_self st reg.input)
  repeat' split
  all_goals first | exact h1 | exact (addImport_pre _ _).subset h1

theorem getFieldWithTypePrefix_mem_qualified (S : GQLSchema) (cfg : Config)
    (reg : ImportsReg) (field : InputValueDef) (w : Bool) (st : List String)
    (hk : (S.getType (getBaseTypeNode field.type)).kind = SchemaKind.inputObject) :
    cfg.pkg ++ "." ++ (S.getType (getBaseTypeNode field.type)).name ∈
      (getFieldWithTypePrefix S cfg reg field w st).2 := by
  unfold getFieldWithTypePrefix
  dsimp only
  have h1 := getActualType_mem_qualified S cfg reg field.type true
    (addImport st reg.input) hk
  repeat' split
  all_goals first | exact h1 | exact (addImport_pre _ _).subset h1

theorem buildFieldsMarshaller_fst (S : GQLSchema) (cfg : Config) (reg : ImportsReg)
    (field : InputValueDef) (st : List String) :
    (buildFieldsMarshaller S cfg reg field st).1 =
    (buildFieldsMarshaller S cfg reg field []).1 := by
  cases hn : typeIsNonNull field.type <;>
    simp [buildFieldsMarshaller, hn, getActualType_fst]

theorem buildFieldsMarshaller_pre (S : GQLSchema) (cfg : Config) (reg : ImportsReg)
    (field : InputValueDef) (st : List String) :
    st <+: (buildFieldsMarshaller S cfg reg field st).2 := by
  unfold buildFieldsMarshaller
  dsimp only
  have h1 := getActualType_pre S cfg reg field.type false st
  repeat' split
  all_goals exact h1

theorem buildFieldsMarshaller_nodup (S : GQLSchema) (cfg : Config) (reg : ImportsReg)
    (field : InputValueDef) (st : List String) (h : st.Nodup) :
    (buildFieldsMarshaller S cfg reg field st).2.Nodup := by
  unfold buildFieldsMarshaller
  dsimp only
  have h1 := getActualType_nodup S cfg reg field.type false st h
  repeat' split
  all_goals exact h1

theorem privateFieldEntry_fst (S : GQLSchema) (cfg : Config) (reg : ImportsReg)
    (a : InputValueDef) (s : List String) :
    (privateFieldEntry S cfg reg a s).1 = (privateFieldEntry S cfg reg a []).1 := by
  unfold privateFieldEntry
  dsimp only
  rw [getFieldWithTypePrefix_fst]

theorem privateFieldEntry_pre (S : GQLSchema) (cfg : Config) (reg : ImportsReg)
    (a : InputValueDef) (s : List String) :
    s <+: (privateFieldEntry S cfg reg a s).2 :=
  getFieldWithTypePrefix_pre S cfg reg a true s

theorem privateFieldEntry_nodup (S : GQLSchema) (cfg : Config) (reg : ImportsReg)
    (a : InputValueDef) (s : List String) (h : s.Nodup) :
    (privateFieldEntry S cfg reg a s).2.Nodup :=
  getFieldWithTypePrefix_nodup S cfg reg a true s h

theorem privateFieldEntry_mem_input (S : GQLSchema) (cfg : Config) (reg : ImportsReg)
    (a : InputValueDef) (s : List String) :
    reg.input ∈ (privateFieldEntry S cfg reg a s).2 :=
  getFieldWithTypePrefix_mem_input S cfg reg a true s

theorem privateFieldEntry_mem_qualified (S : GQLSchema) (cfg : Config) (reg : ImportsReg)
    (a : InputValueDef) (s : List String)
    (hk : (S.getType (getBaseTypeNode a.type)).kind = SchemaKind.inputObject) :
    cfg.pkg ++ "." ++ (S.getType (getBaseTypeNode a.type)).name ∈
      (privateFieldEntry S cfg reg a s).2 :=
  getFieldWithTypePrefix_mem_qualified S cfg reg a true s hk

theorem builderPrivateEntry_fst (S : GQLSchema) (cfg : Config) (reg : ImportsReg)
    (a : InputValueDef) (s : List String) :
    (builderPrivateEntry S cfg reg a s).1 = (builderPrivateEntry S cfg reg a []).1 := by
  unfold builderPrivateEntry
  dsimp only
  rw [getFieldWithTypePrefix_fst]

theorem builderPrivateEntry_pre (S : GQLSchema) (cfg : Config) (reg : ImportsReg)
    (a : InputValueDef) (s : List String) :
    s <+: (builderPrivateEntry S cfg reg a s).2 :=
  getFieldWithTypePrefix_pre S cfg reg a true s

theorem builderPrivateEntry_nodup (S : GQLSchema) (cfg : Config) (reg : ImportsReg)
    (a : InputValueDef) (s : List String) (h : s.Nodup) :
    (builderPrivateEntry S cfg reg a s).2.Nodup :=
  getFieldWithTypePrefix_nodup S cfg reg a true s h

theorem builderSetterEntry_fst (S : GQLSchema) (cfg : Config) (reg : ImportsReg)
    (a : InputValueDef) (s : List String) :
    (builderSetterEntry S cfg reg a s).1 = (builderSetterEntry S cfg reg a []).1 := by
  unfold builderSetterEntry
  dsimp only
  rw [getFieldWithTypePrefix_fst]

theorem builderSetterEntry_pre (S : GQLSchema) (cfg : Config) (reg : ImportsReg)
    (a : InputValueDef) (s : List String) :
    s <+: (builderSetterEntry S cfg reg a s).2 :=
  getFieldWithTypePrefix_pre S cfg reg a false s

theorem builderSetterEntry_nodup (S : GQLSchema) (cfg : Config) (reg : ImportsReg)
    (a : InputValueDef) (s : List String) (h : s.Nodup) :
    (builderSetterEntry S cfg reg a s).2.Nodup :=
  getFieldWithTypePrefix_nodup S cfg reg a false s h

theorem getterEntry_fst (S : GQLSchema) (cfg : Config) (reg : ImportsReg)
    (a : InputValueDef) (s : List String) :
    (getterEntry S cfg reg a s).1 = (getterEntry S cfg reg a []).1 := by
  unfold getterEntry
  dsimp only
  rw [getFieldWithTypePrefix_fst]

theorem getterEntry_pre (S : GQLSchema) (cfg : Config) (reg : ImportsReg)
    (a : InputValueDef) (s : List String) :
    s <+: (getterEntry S cfg reg a s).2 := by
  unfold getterEntry
  dsimp only
  have h1 := getFieldWithTypePrefix_pre S cfg reg a true s
  split
  · exact prefix_addImport _ h1
  · exact h1

theorem getterEntry_nodup (S : GQLSchema) (cfg : Config) (reg : ImportsReg)
    (a : InputValueDef) (s : List String) (h : s.Nodup) :
    (getterEntry S cfg reg a s).2.Nodup := by
  unfold getterEntry
  dsimp only
  have h1 := getFieldWithTypePrefix_nodup S cfg reg a true s h
  split
  · exact nodup_addImport _ h1
  · exact h1

theorem marshallerEntry_fst (S : GQLSchema) (cfg : Config) (reg : ImportsReg)
    (a : InputValueDef) (s : List String) :
    (marshallerEntry S cfg reg a s).1 = (marshallerEntry S cfg reg a []).1 := by
  unfold marshallerEntry
  dsimp only
  rw [buildFieldsMarshaller_fst]

theorem marshallerEntry_pre (S : GQLSchema) (cfg : Config) (reg : ImportsReg)
    (a : InputValueDef) (s : List String) :
    s <+: (marshallerEntry S cfg reg a s).2 :=
  buildFieldsMarshaller_pre S cfg reg a s

theorem marshallerEntry_nodup (S : GQLSchema) (cfg : Config) (reg : ImportsReg)
    (a : InputValueDef) (s : List String) (h : s.Nodup) :
    (marshallerEntry S cfg reg a s).2.Nodup :=
  buildFieldsMarshaller_nodup S cfg reg a s h

theorem buildInputPrivateFields_fst (S : GQLSchema) (cfg : Config) (reg : ImportsReg)
    (fields : List InputValueDef) (st : List String) :
    (buildInputPrivateFields S cfg reg fields st).1 =
    (buildInputPrivateFields S cfg reg fields []).1 := by
  unfold buildInputPrivateFields
  dsimp only
  rw [mapWithState_fst _ (privateFieldEntry_fst S cfg reg) fields st]

theorem buildInputPrivateFields_pre (S : GQLSchema) (cfg : Config) (reg : ImportsReg)
    (fields : List InputValueDef) (st : List String) :
    st <+: (buildInputPrivateFields S cfg reg fields st).2 :=
  mapWithState_pre _ (privateFieldEntry_pre S cfg reg) fields st

theorem buildInputPrivateFields_nodup (S : GQLSchema) (cfg : Config) (reg : ImportsReg)
    (fields : List InputValueDef) (st : List String) (h : st.Nodup) :
    (buildInputPrivateFields S cfg reg fields st).2.Nodup :=
  mapWithState_nodup _ (privateFieldEntry_nodup S cfg reg) fields st h

theorem buildInputPrivateFields_mem_qualified (S : GQLSchema) (cfg : Config)
    (reg : ImportsReg) (fields : List InputValueDef) (f : InputValueDef)
    (hf : f ∈ fields) (st : List String)
    (hk : (S.getType (getBaseTypeNode f.type)).kind = SchemaKind.inputObject) :
    cfg.pkg ++ "." ++ (S.getType (getBaseTypeNode f.type)).name ∈
      (buildInputPrivateFields S cfg reg fields st).2 :=
  mapWithState_mem _ (privateFieldEntry_pre S cfg reg) f _
    (fun s => privateFieldEntry_mem_qualified S cfg reg f s hk) fields hf st

theorem buildInputPrivateFields_mem_input (S : GQLSchema) (cfg : Config)
    (reg : ImportsReg) (fields : List InputValueDef) (f : InputValueDef)
    (hf : f ∈ fields) (st : List String) :
    reg.input ∈ (buildInputPrivateFields S cfg reg fields st).2 :=
  mapWithState_mem _ (privateFieldEntry_pre S cfg reg) f _
    (fun s => privateFieldEntry_mem_input S cfg reg f s) fields hf st

theorem buildInputCtor_fst (S : GQLSchema) (cfg : Config) (reg : ImportsReg)
    (className : String) (fields : List InputValueDef) (st : List String) :
    (buildInputCtor S cfg reg className fields st).1 =
    (buildInputCtor S cfg reg className fields []).1 := by
  unfold buildInputCtor
  dsimp only
  rw [mapWithState_fst _ (fun a s => getFieldWithTypePrefix_fst S cfg reg a true s) fields st]

theorem buildInputCtor_pre (S : GQLSchema) (cfg : Config) (reg : ImportsReg)
    (className : String) (fields : List InputValueDef) (st : List String) :
    st <+: (buildInputCtor S cfg reg className fields st).2 :=
  mapWithState_pre _ (fun a s => getFieldWithTypePrefix_pre S cfg reg a true s) fields st

theorem buildInputCtor_nodup (S : GQLSchema) (cfg : Config) (reg : ImportsReg)
    (className : String) (fields : List InputValueDef) (st : List String) (h : st.Nodup) :
    (buildInputCtor S cfg reg className fields st).2.Nodup :=
  mapWithState_nodup _ (fun a s => getFieldWithTypePrefix_nodup S cfg reg a true s) fields st h

theorem buildInputGetters_fst (S : GQLSchema) (cfg : Config) (reg : ImportsReg)
    (fields : List InputValueDef) (st : List String) :
    (buildInputGetters S cfg reg fields st).1 =
    (buildInputGetters S cfg reg fields []).1 := by
  unfold buildInputGetters
  dsimp only
  rw [mapWithState_fst _ (getterEntry_fst S cfg reg) fields st]

theorem buildInputGetters_pre (S : GQLSchema) (cfg : Config) (reg : ImportsReg)
    (fields : List InputValueDef) (st : List String) :
    st <+: (buildInputGetters S cfg reg fields st).2 :=
  mapWithState_pre _ (getterEntry_pre S cfg reg) fields st

theorem buildInputGetters_nodup (S : GQLSchema) (cfg : Config) (reg : ImportsReg)
    (fields : List InputValueDef) (st : List String) (h : st.Nodup) :
    (buildInputGetters S cfg reg fields st).2.Nodup :=
  mapWithState_nodup _ (getterEntry_nodup S cfg reg) fields st h

theorem buildMarshallerOverride_fst (S : GQLSchema) (cfg : Config) (reg : ImportsReg)
    (fields : List InputValueDef) (st : List String) :
    (buildMarshallerOverride S cfg reg fields st).1 =
    (buildMarshallerOverride S cfg reg fields []).1 := by
  unfold buildMarshallerOverride
  dsimp only
  rw [mapWithState_fst _ (marshallerEntry_fst S cfg reg) fields
      (addImport (addImport (addImport (addImport st reg.overrideImp) reg.ioExn)
        reg.inputFieldWriter) reg.inputFieldMarshaller),
    mapWithState_fst _ (marshallerEntry_fst S cfg reg) fields
      (addImport (addImport (addImport (addImport [] reg.overrideImp) reg.ioExn)
        reg.inputFieldWriter) reg.inputFieldMarshaller)]

theorem buildMarshallerOverride_pre (S : GQLSchema) (cfg : Config) (reg : ImportsReg)
    (fields : List InputValueDef) (st : List String) :
    st <+: (buildMarshallerOverride S cfg reg fields st).2 :=
  (prefix_addImport _ (prefix_addImport _ (prefix_addImport _
    (addImport_pre st _)))).trans
    (mapWithState_pre _ (marshallerEntry_pre S cfg reg) fields _)

theorem buildMarshallerOverride_nodup (S : GQLSchema) (cfg : Config) (reg : ImportsReg)
    (fields : List InputValueDef) (st : List String) (h : st.Nodup) :
    (buildMarshallerOverride S cfg reg fields st).2.Nodup :=
  mapWithState_nodup _ (marshallerEntry_nodup S cfg reg) fields _
    (nodup_addImport _ (nodup_addImport _ (nodup_addImport _ (nodup_addImport _ h))))

theorem buildBuilderNestedClass_fst (S : GQLSchema) (cfg : Config) (reg : ImportsReg)
    (declPrinter : DeclSpec → String) (className : String)
    (fields : List InputValueDef) (st : List String) :
    (buildBuilderNestedClass S cfg reg declPrinter className fields st).1 =
    (buildBuilderNestedClass S cfg reg declPrinter className fields []).1 := by
  unfold buildBuilderNestedClass
  dsimp only
  rw [mapWithState_fst _ (builderPrivateEntry_fst S cfg reg) fields st,
    mapWithState_fst _ (builderSetterEntry_fst S cfg reg) fields
      (mapWithState (builderPrivateEntry S cfg reg) fields st).2,
    mapWithState_fst _ (builderSetterEntry_fst S cfg reg) fields
      (mapWithState (builderPrivateEntry S cfg reg) fields []).2]

theorem buildBuilderNestedClass_pre (S : GQLSchema) (cfg : Config) (reg : ImportsReg)
    (declPrinter : DeclSpec → String) (className : String)
    (fields : List InputValueDef) (st : List String) :
    st <+: (buildBuilderNestedClass S cfg reg declPrinter className fields st).2 :=
  ((mapWithState_pre _ (builderPrivateEntry_pre S cfg reg) fields st).trans
    (mapWithState_pre _ (builderSetterEntry_pre S cfg reg) fields _)).trans
    (foldl_addImport_pre _ _ _)

theorem buildBuilderNestedClass_nodup (S : GQLSchema) (cfg : Config) (reg : ImportsReg)
    (declPrinter : DeclSpec → String) (className : String)
    (fields : List InputValueDef) (st : List String) (h : st.Nodup) :
    (buildBuilderNestedClass S cfg reg declPrinter className fields st).2.Nodup :=
  foldl_addImport_nodup _ _ _
    (mapWithState_nodup _ (builderSetterEntry_nodup S cfg reg) fields _
      (mapWithState_nodup _ (builderPrivateEntry_nodup S cfg reg) fields st h))

theorem InputObjectTypeDefinition_fst (S : GQLSchema) (cfg : Config) (reg : ImportsReg)
    (declPrinter : DeclSpec → String) (node : InputObjectDef) (st : List String) :
    (InputObjectTypeDefinition S cfg reg declPrinter node st).1 =
    (InputObjectTypeDefinition S cfg reg declPrinter node []).1 := by
  unfold InputObjectTypeDefinition
  dsimp only
  simp only [buildInputPrivateFields_fst, buildInputCtor_fst, buildInputGetters_fst,
    buildMarshallerOverride_fst, buildBuilderNestedClass_fst]

theorem InputObjectTypeDefinition_pre (S : GQLSchema) (cfg : Config) (reg : ImportsReg)
    (declPrinter : DeclSpec → String) (node : InputObjectDef) (st : List String) :
    st <+: (InputObjectTypeDefinition S cfg reg declPrinter node st).2 := by
  unfold InputObjectTypeDefinition
  dsimp only
  exact (prefix_addImport _ (addImport_pre st _)).trans
    ((buildInputPrivateFields_pre _ _ _ _ _).trans
      ((buildInputCtor_pre _ _ _ _ _ _).trans
        ((buildInputGetters_pre _ _ _ _ _).trans
          ((buildMarshallerOverride_pre _ _ _ _ _).trans
            (buildBuilderNestedClass_pre _ _ _ _ _ _ _)))))

theorem InputObjectTypeDefinition_nodup (S : GQLSchema) (cfg : Config) (reg : ImportsReg)
    (declPrinter : DeclSpec → String) (node : InputObjectDef) (st : List String)
    (h : st.Nodup) :
    (InputObjectTypeDefinition S cfg reg declPrinter node st).2.Nodup := by
  unfold InputObjectTypeDefinition
  dsimp only
  exact buildBuilderNestedClass_nodup _ _ _ _ _ _ _
    (buildMarshallerOverride_nodup _ _ _ _ _
      (buildInputGetters_nodup _ _ _ _ _
        (buildInputCtor_nodup _ _ _ _ _ _
          (buildInputPrivateFields_nodup _ _ _ _ _
            (nodup_addImport _ (nodup_addImport _ h))))))

theorem InputObjectTypeDefinition_mem_qualified (S : GQLSchema) (cfg : Config)
    (reg : ImportsReg) (declPrinter : DeclSpec → String) (node : InputObjectDef)
    (f : InputValueDef) (hf : f ∈ node.fields) (st : List String)
    (hk : (S.getType (getBaseTypeNode f.type)).kind = SchemaKind.inputObject) :
    cfg.pkg ++ "." ++ (S.getType (getBaseTypeNode f.type)).name ∈
      (InputObjectTypeDefinition S cfg reg declPrinter node st).2 := by
  unfold InputObjectTypeDefinition
  dsimp only
  exact ((buildInputCtor_pre _ _ _ _ _ _).trans
    ((buildInputGetters_pre _ _ _ _ _).trans
      ((buildMarshallerOverride_pre _ _ _ _ _).trans
        (buildBuilderNestedClass_pre _ _ _ _ _ _ _)))).subset
    (buildInputPrivateFields_mem_qualified S cfg reg node.fields f hf _ hk)

theorem InputObjectTypeDefinition_mem_input (S : GQLSchema) (cfg : Config)
    (reg : ImportsReg) (declPrinter : DeclSpec → String) (node : InputObjectDef)
    (f : InputValueDef) (hf : f ∈ node.fields) (st : List String) :
    reg.input ∈ (InputObjectTypeDefinition S cfg reg declPrinter node st).2 := by
  unfold InputObjectTypeDefinition
  dsimp only
  exact ((buildInputCtor_pre _ _ _ _ _ _).trans
    ((buildInputGetters_pre _ _ _ _ _).trans
      ((buildMarshallerOverride_pre _ _ _ _ _).trans
        (buildBuilderNestedClass_pre _ _ _ _ _ _ _)))).subset
    (buildInputPrivateFields_mem_input S cfg reg node.fields f hf _)

/-! ### Claim theorems -/

/-- C1, counterexample: for the required non-list input-object field
`ref: OtherInput!` the emitted marshaller writer call is the
null-coalescing ternary, not `ref.marshaller()` passed directly, contrary
to the claim's required-field case. -/
theorem c1_counterexample :
    getFieldWriterCall exSchema refReqField false =
      "writeObject(\"ref\", ref.value != null ? ref.value.marshaller() : null)" ∧
    getFieldWriterCall exSchema refReqField false ≠
      "writeObject(\"ref\", ref.marshaller())" := by
  exact ⟨by decide, by decide⟩

/-- C1, amended: for every non-list field whose base schema type is an
input object — required or optional alike — the marshaller writer call is
the ternary `writeObject("f", f.value != null ? f.value.marshaller() : null)`. -/
theorem c1_amended (S : GQLSchema) (f : InputValueDef)
    (hk : (S.getType (getBaseTypeNode f.type)).kind = SchemaKind.inputObject) :
    getFieldWriterCall S f false =
      "writeObject(\"" ++ f.name ++ "\", " ++ f.name ++ ".value != null ? " ++
        f.name ++ ".value.marshaller() : null)" := by
  simp [getFieldWriterCall, hk]

/-- C1, witness: the amended claim evaluated at the optional field
`ref: OtherInput`. -/
theorem c1_amended_witness :
    (exSchema.getType (getBaseTypeNode refOptField.type)).kind = SchemaKind.inputObject ∧
    getFieldWriterCall exSchema refOptField false =
      "writeObject(\"ref\", ref.value != null ? ref.value.marshaller() : null)" :=
  ⟨by decide, by simpa using c1_amended exSchema refOptField (by decide)⟩

/-- C2, counterexample: the required list field `tags: [String]!` is
serialized through the boxed `tags.value` access, not from the raw field,
contrary to the claim's required-field case. -/
theorem c2_counterexample :
    typeIsNonNull tagsReqField.type = true ∧
    containsSub (buildFieldsMarshaller exSchema exConfig exReg tagsReqField []).1
      "tags.value" = true := by
  exact ⟨by decide, by decide⟩

/-- C2, amended: a non-list scalar- or enum-based field is passed raw when
required and as the boxed `.value` when optional, but a list field —
required or optional — is always serialized from `name.value`, and a
non-list input-object field always reads `.value` too. -/
theorem c2_amended (S : GQLSchema) (cfg : Config) (reg : ImportsReg)
    (f g e : InputValueDef)
    (_hf : typeIsArray f.type = false)
    (hfk : (S.getType (getBaseTypeNode f.type)).kind = SchemaKind.scalar ∨
           (S.getType (getBaseTypeNode f.type)).kind = SchemaKind.enum)
    (hg : typeIsArray g.type = true)
    (_he : typeIsArray e.type = false)
    (hek : (S.getType (getBaseTypeNode e.type)).kind = SchemaKind.inputObject) :
    getFieldWriterCall S f false =
      (if (S.getType (getBaseTypeNode f.type)).kind = SchemaKind.scalar then
        (SCALAR_TO_WRITER_METHOD (S.getType (getBaseTypeNode f.type)).name).getD "writeCustom"
       else "writeString") ++
      "(\"" ++ f.name ++ "\", " ++ f.name ++
      (if typeIsNonNull f.type then "" else ".value") ++ ")" ∧
    marshallerStatement S cfg reg g =
      "writer.writeList(\"" ++ g.name ++ "\", " ++ g.name ++
      ".value != null ? new InputFieldWriter.ListWriter() \x7b\n  @Override\n  public void write(InputFieldWriter.ListItemWriter listItemWriter) throws IOException \x7b\n    for (" ++
      (getActualType S cfg reg g.type false []).1 ++ " $item : " ++ g.name ++
      ".value) \x7b\n      listItemWriter." ++ getFieldWriterCall S g true ++
      ";\n    \x7d\n  \x7d\n\x7d : null);" ∧
    getFieldWriterCall S e false =
      "writeObject(\"" ++ e.name ++ "\", " ++ e.name ++ ".value != null ? " ++
        e.name ++ ".value.marshaller() : null)" := by
  refine ⟨?_, ?_, ?_⟩
  · rcases hfk with hk | hk <;> simp [getFieldWriterCall, hk]
  · simp [marshallerStatement, hg]
  · simp [getFieldWriterCall, hek]

/-- C2, witness: the amended claim evaluated at `id: ID!` (raw, no
`.value`), at the list field `tags: [String]` (built from `tags.value`),
and at the required non-list input-object field `ref: OtherInput!`
(reads `ref.value`). -/
theorem c2_amended_witness :
    (typeIsArray idField.type = false ∧
     ((exSchema.getType (getBaseTypeNode idField.type)).kind = SchemaKind.scalar ∨
      (exSchema.getType (getBaseTypeNode idField.type)).kind = SchemaKind.enum) ∧
     typeIsArray tagsField.type = true ∧
     typeIsArray refReqField.type = false ∧
     (exSchema.getType (getBaseTypeNode refReqField.type)).kind = SchemaKind.inputObject) ∧
    getFieldWriterCall exSchema idField false = "writeString(\"id\", id)" ∧
    marshallerStatement exSchema exConfig exReg tagsField =
      "writer.writeList(\"tags\", tags.value != null ? new InputFieldWriter.ListWriter() \x7b\n  @Override\n  public void write(InputFieldWriter.ListItemWriter listItemWriter) throws IOException \x7b\n    for (String $item : tags.value) \x7b\n      listItemWriter.writeString($item);\n    \x7d\n  \x7d\n\x7d : null);" ∧
    getFieldWriterCall exSchema refReqField false =
      "writeObject(\"ref\", ref.value != null ? ref.value.marshaller() : null)" := by
  have h := c2_amended exSchema exConfig exReg idField tagsField refReqField (by decide)
    (Or.inl (by decide)) (by decide) (by decide) (by decide)
  exact ⟨⟨by decide, Or.inl (by decide), by decide, by decide, by decide⟩,
    by simpa using h.1, by simpa using h.2.1, by simpa using h.2.2⟩

/-- C3: the per-field marshaller statement is wrapped in the presence
guard `if(name.defined) ...` exactly when the field is optional; a
required field's statement is emitted unguarded. -/
theorem c3_guard_iff_optional (S : GQLSchema) (cfg : Config) (reg : ImportsReg)
    (f : InputValueDef) (st : List String) :
    (buildFieldsMarshaller S cfg reg f st).1 =
      if typeIsNonNull f.type then marshallerStatement S cfg reg f
      else presenceGuardWrap f.name (marshallerStatement S cfg reg f) := by
  cases hn : typeIsNonNull f.type <;>
    simp [buildFieldsMarshaller, marshallerStatement, presenceGuardWrap, hn, getActualType_fst]

/-- C4: a list item of input-object type is always written as
`writeObject($item.marshaller())` — no null check on the item — whatever
the nullability of the list's item type, and the list marshaller embeds
exactly that call per item. -/
theorem c4_list_items_marshaller (S : GQLSchema) (cfg : Config) (reg : ImportsReg)
    (f : InputValueDef)
    (hk : (S.getType (getBaseTypeNode f.type)).kind = SchemaKind.inputObject) :
    getFieldWriterCall S f true = "writeObject($item.marshaller())" ∧
    (typeIsArray f.type = true →
      marshallerStatement S cfg reg f =
        "writer.writeList(\"" ++ f.name ++ "\", " ++ f.name ++
        ".value != null ? new InputFieldWriter.ListWriter() \x7b\n  @Override\n  public void write(InputFieldWriter.ListItemWriter listItemWriter) throws IOException \x7b\n    for (" ++
        (getActualType S cfg reg f.type false []).1 ++ " $item : " ++ f.name ++
        ".value) \x7b\n      listItemWriter." ++ "writeObject($item.marshaller())" ++
        ";\n    \x7d\n  \x7d\n\x7d : null);") := by
  constructor
  · simp [getFieldWriterCall, hk]
  · intro ha
    simp [marshallerStatement, ha, getFieldWriterCall, hk]

/-- C4, witness: the per-item writer call for `refs: [OtherInput]`, whose
item type is nullable in the schema. -/
theorem c4_witness :
    (exSchema.getType (getBaseTypeNode refsListField.type)).kind = SchemaKind.inputObject ∧
    getFieldWriterCall exSchema refsListField true = "writeObject($item.marshaller())" :=
  ⟨by decide, (c4_list_items_marshaller exSchema exConfig exReg refsListField (by decide)).1⟩

/-- C5: for `tags: [String]` the marshaller emits a presence-guarded list
writer whose per-item call is the one-argument `writeString($item)`; the
two-argument `writeString("tags", ...)` form does not occur in it. -/
theorem c5_optional_string_list :
    (buildFieldsMarshaller exSchema exConfig exReg tagsField []).1 =
      presenceGuardWrap "tags"
        ("writer.writeList(\"tags\", tags.value != null ? new InputFieldWriter.ListWriter() \x7b\n  @Override\n  public void write(InputFieldWriter.ListItemWriter listItemWriter) throws IOException \x7b\n    for (String $item : tags.value) \x7b\n      listItemWriter.writeString($item);\n    \x7d\n  \x7d\n\x7d : null);") ∧
    containsSub (buildFieldsMarshaller exSchema exConfig exReg tagsField []).1
      "writeString($item)" = true ∧
    containsSub (buildFieldsMarshaller exSchema exConfig exReg tagsField []).1
      "writeString(\"tags\"" = false := by
  exact ⟨by decide, by decide, by decide⟩

/-- Mapping an import identifier to its `import ...;` line is injective. -/
theorem importLine_injective : Function.Injective (fun imp => "import " ++ imp ++ ";") := by
  intro a b hab
  have h1 : ("import ".data ++ a.data) ++ ";".data = ("import ".data ++ b.data) ++ ";".data :=
    congrArg String.data hab
  have h2 := List.append_cancel_right h1
  have h3 := List.append_cancel_left h2
  cases a
  cases b
  exact congrArg String.mk (by simpa using h3)

/-- C6: the returned import list of a generated class has no duplicates,
and the qualified class-name import of an input-object-typed field occurs
in it exactly once, however many fields reference that type. -/
theorem c6_imports_unique (S : GQLSchema) (cfg : Config) (reg : ImportsReg)
    (declPrinter : DeclSpec → String) (node : InputObjectDef) (f : InputValueDef)
    (hf : f ∈ node.fields)
    (hk : (S.getType (getBaseTypeNode f.type)).kind = SchemaKind.inputObject) :
    (imports (InputObjectTypeDefinition S cfg reg declPrinter node []).2).Nodup ∧
    (imports (InputObjectTypeDefinition S cfg reg declPrinter node []).2).count
      ("import " ++ (cfg.pkg ++ "." ++ (S.getType (getBaseTypeNode f.type)).name) ++ ";") = 1 := by
  have hnd : (InputObjectTypeDefinition S cfg reg declPrinter node []).2.Nodup :=
    InputObjectTypeDefinition_nodup S cfg reg declPrinter node [] List.nodup_nil
  have hnd2 : (imports (InputObjectTypeDefinition S cfg reg declPrinter node []).2).Nodup :=
    hnd.map importLine_injective
  refine ⟨hnd2, ?_⟩
  have hmem := InputObjectTypeDefinition_mem_qualified S cfg reg declPrinter node f hf [] hk
  exact List.count_eq_one_of_mem hnd2 (List.mem_map_of_mem _ hmem)

/-- C6, witness: in the class generated for `Filter`, whose field
`ref: OtherInput` is input-object-typed, the qualified import line occurs
exactly once. -/
theorem c6_witness :
    (refOptField ∈ exNode.fields ∧
     (exSchema.getType (getBaseTypeNode refOptField.type)).kind = SchemaKind.inputObject) ∧
    (imports (InputObjectTypeDefinition exSchema exConfig exReg exPrinter exNode []).2).count
      "import com.app.generated.graphql.OtherInput;" = 1 := by
  have h := c6_imports_unique exSchema exConfig exReg exPrinter exNode refOptField
    (by decide) (by decide)
  exact ⟨⟨by decide, by decide⟩, by simpa using h.2⟩

/-- C7: an unmapped custom scalar does not fail generation: the type
resolver substitutes `Object`, and the writer call falls back to
`writeCustom`, in both the named and the list-item form. -/
theorem c7_unmapped_scalar (S : GQLSchema) (cfg : Config) (reg : ImportsReg)
    (f : InputValueDef) (w : Bool) (st : List String)
    (hk : (S.getType (getBaseTypeNode f.type)).kind = SchemaKind.scalar)
    (hu : cfg.scalars (S.getType (getBaseTypeNode f.type)).name = none)
    (hw : SCALAR_TO_WRITER_METHOD (S.getType (getBaseTypeNode f.type)).name = none) :
    (getActualType S cfg reg f.type w st).1 =
      (if w then wrapTypeWithModifiers "Object" f.type else "Object") ∧
    getFieldWriterCall S f false =
      "writeCustom(\"" ++ f.name ++ "\", " ++ f.name ++
        (if typeIsNonNull f.type then "" else ".value") ++ ")" ∧
    getFieldWriterCall S f true = "writeCustom($item)" := by
  refine ⟨?_, ?_, ?_⟩
  · simp [getActualType, hk, hu]
  · simp [getFieldWriterCall, hk, hu, hw]
  · simp [getFieldWriterCall, hk, hw]

/-- C7, witness: the unmapped scalar `MyScalar` resolves to `Object` and
is written with `writeCustom`. -/
theorem c7_witness :
    ((exSchema.getType (getBaseTypeNode customField.type)).kind = SchemaKind.scalar ∧
     exConfig.scalars (exSchema.getType (getBaseTypeNode customField.type)).name = none ∧
     SCALAR_TO_WRITER_METHOD (exSchema.getType (getBaseTypeNode customField.type)).name = none) ∧
    (getActualType exSchema exConfig exReg customField.type true []).1 = "Object" ∧
    getFieldWriterCall exSchema customField false = "writeCustom(\"meta\", meta.value)" := by
  have h := c7_unmapped_scalar exSchema exConfig exReg customField true []
    (by decide) (by decide) (by decide)
  exact ⟨⟨by decide, by decide, by decide⟩, by simpa using h.1, by simpa using h.2.1⟩

/-- `indent` with the default count is just the two-space prefix. -/
theorem indent_one (s : String) : indent s 1 = "  " ++ s := rfl

/-- Folding the two-space indentation into the null-check literal. -/
theorem checkNotNull_indent_fuse (s : String) :
    "  " ++ ("Utils.checkNotNull(" ++ s) = "  Utils.checkNotNull(" ++ s := by
  rw [← String.append_assoc]
  rfl

/-- C8: the builder's `build()` text performs one descriptive null check
per required field — and only those, in declaration order — before
invoking the constructor with every field, required and optional, in
declaration order. -/
theorem c8_build_checks (className : String) (fields : List InputValueDef) :
    builderBuildFn className fields = specBuildFn className fields ∧
    builderNonNullChecks fields =
      (fields.filter (fun f => typeIsNonNull f.type)).map (fun f =>
        "  " ++ "Utils.checkNotNull(" ++ f.name ++ ", \"" ++ f.name ++ " == null\");") := by
  constructor
  · simp [builderBuildFn, specBuildFn, builderNonNullChecks, indent_one, String.append_assoc,
      checkNotNull_indent_fuse]
  · simp [builderNonNullChecks, indent_one, String.append_assoc, checkNotNull_indent_fuse]

/-- C9: generating the class text is deterministic and pure apart from
the import set: the emitted text does not depend on the import state the
visitor already accumulated, and a run only ever appends new imports. -/
theorem c9_deterministic (S : GQLSchema) (cfg : Config) (reg : ImportsReg)
    (declPrinter : DeclSpec → String) (node : InputObjectDef) (st1 st2 : List String) :
    (InputObjectTypeDefinition S cfg reg declPrinter node st1).1 =
      (InputObjectTypeDefinition S cfg reg declPrinter node st2).1 ∧
    st1 <+: (InputObjectTypeDefinition S cfg reg declPrinter node st1).2 :=
  ⟨(InputObjectTypeDefinition_fst S cfg reg declPrinter node st1).trans
      (InputObjectTypeDefinition_fst S cfg reg declPrinter node st2).symm,
    InputObjectTypeDefinition_pre S cfg reg declPrinter node st1⟩

/-- C10: the field-descriptor builder records the `Input` optional-box
entry unconditionally — for required fields and with the wrapper not
requested just the same — so a generated class with at least one field
always carries the `Input` import. -/
theorem c10_input_import (S : GQLSchema) (cfg : Config) (reg : ImportsReg)
    (declPrinter : DeclSpec → String) (f : InputValueDef) (w : Bool)
    (st : List String) (node : InputObjectDef) (h : node.fields ≠ []) :
    reg.input ∈ (getFieldWithTypePrefix S cfg reg f w st).2 ∧
    reg.input ∈ (InputObjectTypeDefinition S cfg reg declPrinter node st).2 := by
  refine ⟨getFieldWithTypePrefix_mem_input S cfg reg f w st, ?_⟩
  obtain ⟨a, ha⟩ := List.exists_mem_of_ne_nil node.fields h
  exact InputObjectTypeDefinition_mem_input S cfg reg declPrinter node a ha st

/-- C10, witness: the required field `id: ID!` with the wrapper not
requested still records the Input import, and the final state of the
`Filter` class run contains it. -/
theorem c10_witness :
    exNode.fields ≠ [] ∧
    exReg.input ∈ (getFieldWithTypePrefix exSchema exConfig exReg idField false []).2 ∧
    exReg.input ∈ (InputObjectTypeDefinition exSchema exConfig exReg exPrinter exNode []).2 := by
  have h := c10_input_import exSchema exConfig exReg exPrinter idField false [] exNode
    (by decide)
  exact ⟨by decide, h.1, h.2⟩

end ApolloAndroid
